import Mathlib

/-!
Shallow embedding of the ForecastAI demand-forecasting and replenishment core
(`backend/app/services/forecast_service.py`, `alert_service.py`, `po_service.py`).

Numeric values are modelled with exact rationals (`ℚ`); calendar dates with an
integer day number (`ℤ`).  Two genuinely external numeric kernels are taken as
parameters of the embedding:

* the trained tree-ensemble regressor (`model : FeatureVec → ℚ`), opaque to the
  repository code itself (scikit-learn), and
* the square-root-based standard deviations (`np.std`, pandas `rolling().std()`),
  whose exact values are irrational in general; every guard that the repository
  code places around them (the NaN produced by a one-sample window, the
  `len > 1` check in the recursive forecaster) is embedded explicitly.

The calendar-feature extraction (`pandas`/`datetime` day-of-week, month, ISO
week) is likewise an external library and is passed in as `cal : ℤ → CalFeats`.
-/

namespace ForecastAI

/-- A raw sales record as fetched by `ForecastService._get_sales_data`:
one row per `Sale`, with its calendar day, integer quantity and revenue. -/
structure SaleRec where
  day : ℤ
  qty : ℤ
  revenue : ℚ
deriving DecidableEq, Repr

/-- Calendar features supplied by the date library for one day:
day-of-week (0 = Monday), day-of-month, month, ISO week number. -/
structure CalFeats where
  dow : ℤ
  dom : ℤ
  month : ℤ
  week : ℤ
deriving DecidableEq, Repr

/-- The external calendar: day number to calendar features. -/
abbrev Cal := ℤ → CalFeats

/-- The feature vector handed to the regressor — the `feature_cols` list of
`forecast_service.py`. -/
structure FeatureVec where
  dow : ℤ
  dom : ℤ
  month : ℤ
  week : ℤ
  isWeekend : ℤ
  lag1 : ℚ
  lag7 : ℚ
  lag14 : ℚ
  lag30 : ℚ
  rm7 : ℚ
  rm14 : ℚ
  rm30 : ℚ
  rs7 : ℚ
  rs14 : ℚ
  rs30 : ℚ
deriving DecidableEq, Repr

/-- One produced forecast point (the dict appended in `_make_predictions` and in
the fallback loop of `generate_forecast`). -/
structure Pred where
  fdate : ℤ
  pq : ℚ
  lo : ℚ
  hi : ℚ
deriving DecidableEq, Repr

/-- One row of the dense feature table built by `_create_features`. -/
structure FeatureRow where
  day : ℤ
  qty : ℚ
  revenue : ℚ
  dow : ℤ
  dom : ℤ
  month : ℤ
  week : ℤ
  isWeekend : ℤ
  lag1 : ℚ
  lag7 : ℚ
  lag14 : ℚ
  lag30 : ℚ
  rm7 : ℚ
  rm14 : ℚ
  rm30 : ℚ
  rs7 : ℚ
  rs14 : ℚ
  rs30 : ℚ
deriving DecidableEq, Repr

/-- Arithmetic mean of a list of rationals (`np.mean`, pandas `.mean()`). -/
def mean (l : List ℚ) : ℚ := l.sum / l.length

/-- The last `n` elements of a list (Python `l[-n:]`, `tail(n)`). -/
def lastN (l : List α) (n : ℕ) : List α := l.drop (l.length - n)

/-- Python `round()` to an integer: round half to even (banker's rounding). -/
def pyRoundInt (y : ℚ) : ℤ :=
  if y - ⌊y⌋ < 1/2 then ⌊y⌋
  else if 1/2 < y - ⌊y⌋ then ⌊y⌋ + 1
  else if Even ⌊y⌋ then ⌊y⌋ else ⌊y⌋ + 1

/-- Python `round(x, 2)`: round half to even at two decimal places. -/
def pyRound2 (x : ℚ) : ℚ := (pyRoundInt (100 * x) : ℚ) / 100

/-- Python `int()` on a numeric value: truncation toward zero. -/
def pyInt (q : ℚ) : ℤ := if 0 ≤ q then ⌊q⌋ else -⌊-q⌋

/-! ## FeatureBuilder — `ForecastService._create_features` -/

/-- Earliest sale day (`daily['sale_date'].min()`). -/
def minDay (sales : List SaleRec) : ℤ :=
  ((sales.map SaleRec.day).min?).getD 0

/-- Latest sale day (`daily['sale_date'].max()`). -/
def maxDay (sales : List SaleRec) : ℤ :=
  ((sales.map SaleRec.day).max?).getD 0

/-- The continuous daily index `pd.date_range(min, max, freq='D')`. -/
def daysRange (a b : ℤ) : List ℤ :=
  (List.range (b - a + 1).toNat).map (fun (i : ℕ) => a + (i : ℤ))

/-- Total quantity sold on day `d` (`groupby('sale_date').agg(quantity='sum')`
followed by the zero-filling reindex: a day with no record gets 0). -/
def dailyQty (sales : List SaleRec) (d : ℤ) : ℚ :=
  ((sales.filter (fun s => s.day = d)).map (fun s => (s.qty : ℚ))).sum

/-- Total revenue on day `d` (same aggregation for the `revenue` column). -/
def dailyRev (sales : List SaleRec) (d : ℤ) : ℚ :=
  ((sales.filter (fun s => s.day = d)).map SaleRec.revenue).sum

/-- The dense daily quantity column of the gap-filled feature table. -/
def qtyCol (sales : List SaleRec) : List ℚ :=
  (daysRange (minDay sales) (maxDay sales)).map (dailyQty sales)

/-- Number of rows of the dense feature table: one row per calendar day in
`[min(sale_date), max(sale_date)]`; an empty input gives an empty table. -/
def featureRowCount (sales : List SaleRec) : ℕ :=
  if sales.isEmpty then 0 else (maxDay sales - minDay sales + 1).toNat

/-- The dense feature table of `_create_features`.
`sampleStd` is the external pandas sample standard deviation (ddof = 1) on a
window of at least two values; on a one-value window pandas yields NaN, which
the trailing `fillna(0)` of the source turns into 0 — embedded here as the
`1 < length` guard.  Lag columns come from `shift(k)` plus `fillna(0)`. -/
def featureTable (sampleStd : List ℚ → ℚ) (cal : Cal) (sales : List SaleRec) :
    List FeatureRow :=
  if sales.isEmpty then []
  else
    let days := daysRange (minDay sales) (maxDay sales)
    let q := days.map (dailyQty sales)
    (List.range days.length).map (fun j =>
      let d := days.getD j 0
      let c := cal d
      let lag := fun (k : ℕ) => if k ≤ j then q.getD (j - k) 0 else 0
      let win := fun (w : ℕ) => lastN (q.take (j + 1)) w
      let rs := fun (w : ℕ) => if 1 < (win w).length then sampleStd (win w) else 0
      { day := d
        qty := q.getD j 0
        revenue := dailyRev sales d
        dow := c.dow, dom := c.dom, month := c.month, week := c.week
        isWeekend := if 5 ≤ c.dow then 1 else 0
        lag1 := lag 1, lag7 := lag 7, lag14 := lag 14, lag30 := lag 30
        rm7 := mean (win 7), rm14 := mean (win 14), rm30 := mean (win 30)
        rs7 := rs 7, rs14 := rs 14, rs30 := rs 30 })

/-! ## Recursive forecaster — `ForecastService._make_predictions` -/

/-- The per-step feature computation of the loop body of `_make_predictions`.
`recent0` is `list(df.tail(30)['quantity'])`; `predsSoFar` the
`predicted_quantity` values already produced in this run.  `npStd` is the
external `np.std` (population standard deviation); the source's explicit
`if len(recent_qty) > 1 else 0` guard is embedded as written. -/
def stepFeatures (npStd : List ℚ → ℚ) (cal : Cal) (recent0 : List ℚ)
    (predsSoFar : List ℚ) (futureDate : ℤ) : FeatureVec :=
  let p := predsSoFar.length
  let quantities := if 0 < p then (recent0.drop p) ++ predsSoFar else recent0
  let lag := fun (k : ℕ) =>
    if k ≤ quantities.length then quantities.getD (quantities.length - k) 0 else 0
  let win := fun (w : ℕ) =>
    if w ≤ quantities.length then lastN quantities w else quantities
  let rs := fun (w : ℕ) => if 1 < (win w).length then npStd (win w) else 0
  let c := cal futureDate
  { dow := c.dow, dom := c.dom, month := c.month, week := c.week
    isWeekend := if 5 ≤ c.dow then 1 else 0
    lag1 := lag 1, lag7 := lag 7, lag14 := lag 14, lag30 := lag 30
    rm7 := mean (win 7), rm14 := mean (win 14), rm30 := mean (win 30)
    rs7 := rs 7, rs14 := rs 14, rs30 := rs 30 }

/-- One loop iteration: predict, clamp at zero, build the 1.96-sigma band from
the step's `rolling_std_30`, round everything to two decimals. -/
def mkStep (model : FeatureVec → ℚ) (f : FeatureVec) (futureDate : ℤ) : Pred :=
  let pred := max 0 (model f)
  let std := f.rs30
  { fdate := futureDate
    pq := pyRound2 pred
    lo := pyRound2 (max 0 (pred - 196/100 * std))
    hi := pyRound2 (pred + 196/100 * std) }

/-- The first `n` iterations of the prediction loop: each step reads the
`predicted_quantity` of the predictions already appended. -/
def makePredGo (model : FeatureVec → ℚ) (npStd : List ℚ → ℚ) (cal : Cal)
    (recent0 : List ℚ) (lastDate : ℤ) : ℕ → List Pred
  | 0 => []
  | n + 1 =>
    let ps := makePredGo model npStd cal recent0 lastDate n
    ps ++ [mkStep model
      (stepFeatures npStd cal recent0 (ps.map Pred.pq) (lastDate + (n + 1)))
      (lastDate + (n + 1))]

/-- `_make_predictions`: run the loop for `horizon` steps starting from the
last 30 rows of the feature table's quantity column. -/
def makePredictions (model : FeatureVec → ℚ) (npStd : List ℚ → ℚ) (cal : Cal)
    (qty : List ℚ) (lastDate : ℤ) (horizon : ℕ) : List Pred :=
  makePredGo model npStd cal (lastN qty 30) lastDate horizon

/-! ## `ForecastService.generate_forecast` -/

/-- The insufficient-data branch of `generate_forecast`: constant mean of the
raw record quantities (1.0 on an empty history), half/one-and-a-half bounds,
dated from the day after `today`. -/
def fallbackPredictions (sales : List SaleRec) (today : ℤ) (horizon : ℕ) :
    List Pred :=
  let avg : ℚ := if sales.isEmpty then 1 else mean (sales.map (fun s => (s.qty : ℚ)))
  (List.range horizon).map (fun (i : ℕ) =>
    { fdate := today + ((i : ℤ) + 1)
      pq := pyRound2 avg
      lo := pyRound2 (max 0 (avg * (1/2)))
      hi := pyRound2 (avg * (3/2)) })

/-- The prediction set produced by `generate_forecast`: the fallback branch is
taken exactly on `df.empty or len(df) < 7`, i.e. when there are fewer than 7
raw sales records; otherwise the model is trained on the dense feature table
and the recursive forecaster runs from its last date. -/
def generatePredictions (model : FeatureVec → ℚ) (npStd : List ℚ → ℚ)
    (cal : Cal) (sales : List SaleRec) (today : ℤ) (horizon : ℕ) : List Pred :=
  if sales.length < 7 then fallbackPredictions sales today horizon
  else makePredictions model npStd cal (qtyCol sales) (maxDay sales) horizon

/-! ## Forecast persistence — `ForecastService._save_forecasts` -/

/-- One persisted `Forecast` row. -/
structure ForecastRow where
  user : ℤ
  product : ℤ
  fdate : ℤ
  pq : ℚ
  lo : ℚ
  hi : ℚ
deriving DecidableEq, Repr

/-- `_save_forecasts`: delete every stored forecast of this (product, user),
then insert the new prediction set. -/
def saveForecasts (db : List ForecastRow) (uid pid : ℤ) (preds : List Pred) :
    List ForecastRow :=
  db.filter (fun r => !(r.product == pid && r.user == uid))
    ++ preds.map (fun p => ⟨uid, pid, p.fdate, p.pq, p.lo, p.hi⟩)

/-- `generate_forecast` as a state transformer on the forecast table: `none`
when the product id has no `Product` row (the `ValueError` path), otherwise
the table after the replace-all save. -/
def generateForecastDb (model : FeatureVec → ℚ) (npStd : List ℚ → ℚ) (cal : Cal)
    (productIds : List ℤ) (db : List ForecastRow) (uid pid : ℤ)
    (sales : List SaleRec) (today : ℤ) (horizon : ℕ) :
    Option (List ForecastRow) :=
  if pid ∈ productIds then
    some (saveForecasts db uid pid
      (generatePredictions model npStd cal sales today horizon))
  else none

/-- The stored forecast set of one (product, user): what a reader of this
product's forecast observes. -/
def rowsFor (db : List ForecastRow) (uid pid : ℤ) : List ForecastRow :=
  db.filter (fun r => r.product == pid && r.user == uid)

/-- A degenerate regressor used to instantiate the opaque model parameter in
concrete evaluations. -/
def zeroModel : FeatureVec → ℚ := fun _ => 0

/-- A degenerate standard-deviation kernel for concrete evaluations. -/
def zeroStd : List ℚ → ℚ := fun _ => 0

/-- A degenerate calendar for concrete evaluations. -/
def flatCal : Cal := fun _ => ⟨0, 0, 0, 0⟩

/-! ## Alert engine — `AlertService` -/

/-- Alert categories (`AlertType` of `models/alert.py`). -/
inductive AType where
  | stockoutWarning
  | lowStock
  | reorderReminder
  | overstock
deriving DecidableEq, Repr

/-- Alert priorities (`AlertPriority`). -/
inductive APriority where
  | critical
  | high
  | medium
  | low
deriving DecidableEq, Repr

/-- Tag identifying which `_create_alert` call site produced the alert; the
source distinguishes them by their title strings ("OUT OF STOCK: …",
"Stockout Risk: …", "Low Stock: …", "Overstock: …"). -/
inductive ATitle where
  | outOfStock
  | stockoutRisk
  | lowStockTitle
  | overstockTitle
deriving DecidableEq, Repr

/-- Supplier data read by the alert engine. -/
structure SupplierInfo where
  leadTimeDays : ℤ
  minimumOrderQuantity : ℤ
deriving DecidableEq, Repr

/-- Per-product inputs of one iteration of `generate_alerts`: the joined
`Product`/`Inventory` row, the resolved supplier (if any), and the total
quantity sold over the trailing 30 days (`_get_avg_daily_demand` numerator,
an integer since `Sale.quantity` is an `Integer` column). -/
structure ProdInputs where
  pid : ℤ
  onHand : ℤ
  reserved : ℤ
  onOrder : ℤ
  reorderPoint : ℤ
  supplier : Option SupplierInfo
  totalQty30 : ℤ
deriving DecidableEq, Repr

/-- Supplier lead time with the in-loop default of 7. -/
def leadTimeOf (p : ProdInputs) : ℤ := (p.supplier.map SupplierInfo.leadTimeDays).getD 7

/-- Supplier minimum order quantity with the `_calculate_reorder_qty` default 1. -/
def minOrderOf (p : ProdInputs) : ℤ :=
  (p.supplier.map SupplierInfo.minimumOrderQuantity).getD 1

/-- `available = quantity_on_hand - quantity_reserved`. -/
def availableOf (p : ProdInputs) : ℤ := p.onHand - p.reserved

/-- `_get_avg_daily_demand`: trailing-30-day total over 30. -/
def avgDailyDemand (p : ProdInputs) : ℚ := (p.totalQty30 : ℚ) / 30

/-- `days_of_stock = available / avg_daily_demand if avg_daily_demand > 0 else 999`:
the division is guarded, a non-positive demand short-circuits to 999. -/
def daysOfStock (p : ProdInputs) : ℚ :=
  if 0 < avgDailyDemand p then (availableOf p : ℚ) / avgDailyDemand p else 999

/-- `_calculate_reorder_qty`: 30-day buffer beyond lead time and safety stock,
net of available and on-order stock, bumped to the supplier minimum when
strictly between 0 and it, truncated to an integer by `int()`. -/
def calcReorderQty (safety : ℤ) (p : ProdInputs) : ℤ :=
  let targetDays : ℚ := (leadTimeOf p : ℚ) + safety + 30
  let targetStock := avgDailyDemand p * targetDays
  let rq := max 0 (targetStock - (availableOf p : ℚ) - p.onOrder)
  let rq' := if 0 < rq ∧ rq < (minOrderOf p : ℚ) then (minOrderOf p : ℚ) else rq
  pyInt rq'

/-- The decision payload of one `_create_alert` call. -/
structure AlertDraft where
  atype : AType
  priority : APriority
  title : ATitle
  recQty : Option ℤ
deriving DecidableEq, Repr

/-- The branch cascade of `generate_alerts` for one product, first match wins;
`safety` is `settings.safety_stock_days`. -/
def alertDecision (safety : ℤ) (p : ProdInputs) : Option AlertDraft :=
  let available := availableOf p
  let days := daysOfStock p
  let lead := leadTimeOf p
  if available ≤ 0 then
    some ⟨AType.stockoutWarning, APriority.critical, ATitle.outOfStock,
      some (calcReorderQty safety p)⟩
  else if days ≤ (lead : ℚ) + safety then
    some ⟨AType.stockoutWarning,
      (if days ≤ (lead : ℚ) then APriority.critical else APriority.high),
      ATitle.stockoutRisk, some (calcReorderQty safety p)⟩
  else if available ≤ p.reorderPoint then
    some ⟨AType.lowStock, APriority.medium, ATitle.lowStockTitle,
      some (calcReorderQty safety p)⟩
  else if p.reorderPoint * 4 < available then
    some ⟨AType.overstock, APriority.low, ATitle.overstockTitle, none⟩
  else none

/-- One persisted `Alert` row; new rows get the column defaults
`is_read = False`, `is_resolved = False`. -/
structure AlertRow where
  user : ℤ
  product : ℤ
  atype : AType
  priority : APriority
  title : ATitle
  recQty : Option ℤ
  isRead : Bool
  isResolved : Bool
deriving DecidableEq, Repr

/-- One iteration of the `generate_alerts` loop on the alert table: delete this
product's unresolved alerts of this user, then insert the decision (if any). -/
def alertStep (safety : ℤ) (uid : ℤ) (db : List AlertRow) (p : ProdInputs) :
    List AlertRow :=
  let db' := db.filter (fun a =>
    !(a.product == p.pid && a.user == uid && a.isResolved == false))
  match alertDecision safety p with
  | none => db'
  | some d => db' ++ [⟨uid, p.pid, d.atype, d.priority, d.title, d.recQty,
      false, false⟩]

/-- `generate_alerts` over the whole product list. -/
def generateAlerts (safety : ℤ) (uid : ℤ) (prods : List ProdInputs)
    (db : List AlertRow) : List AlertRow :=
  prods.foldl (alertStep safety uid) db

/-! ## Purchase-order drafting — `POService.create_po_from_recommendations` -/

/-- Product catalog data read by the PO service. -/
structure ProductRec where
  pid : ℤ
  uid : ℤ
  supplier : Option ℤ
  totalQty30 : ℤ
deriving DecidableEq, Repr

/-- Append `p` to the entry of key `k` of an insertion-ordered association
list, creating the entry if absent (the `by_supplier` dict updates). -/
def dictAppend (acc : List (ℤ × List ProductRec)) (k : ℤ) (p : ProductRec) :
    List (ℤ × List ProductRec) :=
  match acc with
  | [] => [(k, [p])]
  | (k', ps) :: rest =>
    if k' = k then (k', ps ++ [p]) :: rest else (k', ps) :: dictAppend rest k p

/-- `_get_avg_daily_demand` as used in the PO path. -/
def avgDailyOfProduct (p : ProductRec) : ℚ := (p.totalQty30 : ℚ) / 30

/-- The recommended line quantity: `max(1, int(avg_daily * 30))`. -/
def poQuantity (p : ProductRec) : ℤ := max 1 (pyInt (avgDailyOfProduct p * 30))

/-- `create_po_from_recommendations` reduced to its draft: group the found
products by `supplier_id or 0` in first-seen order, then emit one order per
supplier, skipping the no-supplier group (key 0); `none` models the
`ValueError` on an empty id list.  Each line item is (product id, quantity). -/
def createPO (uid : ℤ) (productDb : List ProductRec) (ids : List ℤ) :
    Option (List (ℤ × List (ℤ × ℤ))) :=
  if ids.isEmpty then none
  else
    let bySupplier := ids.foldl (fun acc i =>
      match productDb.find? (fun p => p.pid == i && p.uid == uid) with
      | none => acc
      | some p => dictAppend acc ((p.supplier).getD 0) p) []
    some (bySupplier.filterMap (fun g =>
      if g.1 = 0 then none
      else some (g.1, g.2.map (fun p => (p.pid, poQuantity p)))))

/-! ## Helper lemmas -/

theorem pyRoundInt_bounds (y : ℚ) : ⌊y⌋ ≤ pyRoundInt y ∧ pyRoundInt y ≤ ⌊y⌋ + 1 := by
  unfold pyRoundInt
  split_ifs <;> omega

theorem pyRoundInt_mono {x y : ℚ} (h : x ≤ y) : pyRoundInt x ≤ pyRoundInt y := by
  rcases eq_or_lt_of_le (Int.floor_le_floor h) with heq | hlt
  · have heq' : ((⌊x⌋ : ℤ) : ℚ) = ((⌊y⌋ : ℤ) : ℚ) := by exact_mod_cast heq
    unfold pyRoundInt
    split_ifs <;>
      first
        | omega
        | (exfalso; linarith)
        | (simp only [Int.even_iff] at *; omega)
  · have b1 := pyRoundInt_bounds x
    have b2 := pyRoundInt_bounds y
    omega

theorem pyRoundInt_nonneg {y : ℚ} (h : 0 ≤ y) : 0 ≤ pyRoundInt y := by
  have b := pyRoundInt_bounds y
  have : (0 : ℤ) ≤ ⌊y⌋ := Int.floor_nonneg.mpr h
  omega

theorem pyRound2_mono {x y : ℚ} (h : x ≤ y) : pyRound2 x ≤ pyRound2 y := by
  have h100 : (100 : ℚ) * x ≤ 100 * y := by linarith
  have hi := pyRoundInt_mono h100
  have hi' : ((pyRoundInt (100 * x) : ℤ) : ℚ) ≤ ((pyRoundInt (100 * y) : ℤ) : ℚ) := by
    exact_mod_cast hi
  unfold pyRound2
  linarith

theorem pyRound2_nonneg {y : ℚ} (h : 0 ≤ y) : 0 ≤ pyRound2 y := by
  have hi : (0 : ℤ) ≤ pyRoundInt (100 * y) := pyRoundInt_nonneg (by linarith)
  have hi' : (0 : ℚ) ≤ ((pyRoundInt (100 * y) : ℤ) : ℚ) := by exact_mod_cast hi
  unfold pyRound2
  linarith

theorem pyInt_intCast (n : ℤ) : pyInt (n : ℚ) = n := by
  unfold pyInt
  split_ifs with h
  · exact Int.floor_intCast n
  · rw [← Int.cast_neg, Int.floor_intCast]
    omega

theorem makePredGo_length (model : FeatureVec → ℚ) (npStd : List ℚ → ℚ)
    (cal : Cal) (recent0 : List ℚ) (lastDate : ℤ) (n : ℕ) :
    (makePredGo model npStd cal recent0 lastDate n).length = n := by
  induction n with
  | zero => rfl
  | succ m ih => simp [makePredGo, ih]

theorem lastN_length (l : List α) (n : ℕ) :
    (lastN l n).length = min n l.length := by
  simp [lastN]
  omega

theorem getD_lastN (F : List ℚ) (m k : ℕ) (hm : m ≤ F.length)
    (hkm : k ≤ m) :
    (lastN F m).getD ((lastN F m).length - k) 0 = F.getD (F.length - k) 0 := by
  simp only [lastN, List.getD_eq_getElem?_getD, List.getElem?_drop,
    List.length_drop]
  congr 2
  omega

theorem stepQuantities (hist pv : List ℚ) (h30 : 30 ≤ hist.length) :
    (if 0 < pv.length then ((lastN hist 30).drop pv.length) ++ pv
      else lastN hist 30)
      = lastN (hist ++ pv) (max 30 pv.length) := by
  rcases Nat.eq_zero_or_pos pv.length with h0 | hpos
  · have hnil : pv = [] := List.length_eq_zero.mp h0
    subst hnil
    simp [lastN]
  · rw [if_pos hpos]
    by_cases hle : pv.length ≤ 30
    · simp only [lastN, List.drop_drop, List.length_append]
      rw [max_eq_left hle,
        List.drop_append_of_le_length (by omega)]
      congr 2
      omega
    · have h30p : 30 < pv.length := by omega
      rw [max_eq_right (by omega)]
      have hdropAll : (lastN hist 30).drop pv.length = [] := by
        apply List.drop_eq_nil_of_le
        rw [lastN_length]
        omega
      rw [hdropAll]
      simp only [lastN, List.length_append, List.nil_append]
      have : hist.length + pv.length - pv.length = hist.length := by omega
      rw [this, List.drop_left]

theorem pyRound2_of_mul_int (x : ℚ) (n : ℤ) (h : 100 * x = (n : ℚ)) :
    pyRound2 x = x := by
  have hfl : ⌊(100 : ℚ) * x⌋ = n := by rw [h, Int.floor_intCast]
  unfold pyRound2 pyRoundInt
  rw [hfl, h]
  simp
  linarith

theorem stepLag_eq (hist pv : List ℚ) (h30 : 30 ≤ hist.length) (k : ℕ)
    (hk30 : k ≤ 30) :
    (let q := lastN (hist ++ pv) (max 30 pv.length)
      if k ≤ q.length then q.getD (q.length - k) 0 else 0)
      = (hist ++ pv).getD (hist.length + pv.length - k) 0 := by
  have hq : (lastN (hist ++ pv) (max 30 pv.length)).length = max 30 pv.length := by
    rw [lastN_length, List.length_append]
    omega
  simp only [hq]
  rw [if_pos (by omega)]
  have := getD_lastN (hist ++ pv) (max 30 pv.length) k
    (by rw [List.length_append]; omega) (by omega)
  rw [hq] at this
  rw [this, List.length_append]

/-! ## C1 — which branch of `generate_forecast` runs -/

/-- C1 (amended): the constant-mean fallback branch of `generate_forecast` is
taken exactly when the raw sales history has fewer than 7 records
(`df.empty or len(df) < 7`), regardless of how many rows the dense feature
table would have; with 7 or more records the model is trained on the dense
feature table and the recursive prediction path runs. -/
theorem C1_branch_on_record_count (model : FeatureVec → ℚ)
    (npStd : List ℚ → ℚ) (cal : Cal) (sales : List SaleRec) (today : ℤ)
    (horizon : ℕ) :
    (sales.length < 7 →
      generatePredictions model npStd cal sales today horizon
        = fallbackPredictions sales today horizon) ∧
    (7 ≤ sales.length →
      generatePredictions model npStd cal sales today horizon
        = makePredictions model npStd cal (qtyCol sales) (maxDay sales) horizon) := by
  constructor
  · intro h
    simp [generatePredictions, h]
  · intro h
    rw [generatePredictions, if_neg (by omega)]

/-- Witness for C1: a 3-record history takes the fallback branch; a 7-record
history (spread over 7 days) takes the model branch. -/
theorem C1_branch_on_record_count_w :
    generatePredictions zeroModel zeroStd flatCal
        [⟨0, 4, 0⟩, ⟨1, 6, 0⟩, ⟨2, 5, 0⟩] 0 2
      = fallbackPredictions [⟨0, 4, 0⟩, ⟨1, 6, 0⟩, ⟨2, 5, 0⟩] 0 2 ∧
    generatePredictions zeroModel zeroStd flatCal
        [⟨0, 1, 0⟩, ⟨1, 1, 0⟩, ⟨2, 1, 0⟩, ⟨3, 1, 0⟩, ⟨4, 1, 0⟩, ⟨5, 1, 0⟩, ⟨6, 1, 0⟩] 0 2
      = makePredictions zeroModel zeroStd flatCal
          (qtyCol [⟨0, 1, 0⟩, ⟨1, 1, 0⟩, ⟨2, 1, 0⟩, ⟨3, 1, 0⟩, ⟨4, 1, 0⟩, ⟨5, 1, 0⟩, ⟨6, 1, 0⟩])
          (maxDay [⟨0, 1, 0⟩, ⟨1, 1, 0⟩, ⟨2, 1, 0⟩, ⟨3, 1, 0⟩, ⟨4, 1, 0⟩, ⟨5, 1, 0⟩, ⟨6, 1, 0⟩]) 2 :=
  ⟨(C1_branch_on_record_count zeroModel zeroStd flatCal _ 0 2).1 (by decide),
   (C1_branch_on_record_count zeroModel zeroStd flatCal _ 0 2).2 (by decide)⟩

/-- Counterexample for C1 as stated: seven same-day sales records produce a
dense feature table with a single row (fewer than 7), yet the branch test
`len(df) < 7` sees 7 records and takes the model path, not the fallback. -/
theorem C1_feature_table_counterexample :
    featureRowCount
        [⟨0, 1, 0⟩, ⟨0, 1, 0⟩, ⟨0, 1, 0⟩, ⟨0, 1, 0⟩, ⟨0, 1, 0⟩, ⟨0, 1, 0⟩, ⟨0, 1, 0⟩] = 1 ∧
    (1 : ℕ) < 7 ∧
    generatePredictions zeroModel zeroStd flatCal
        [⟨0, 1, 0⟩, ⟨0, 1, 0⟩, ⟨0, 1, 0⟩, ⟨0, 1, 0⟩, ⟨0, 1, 0⟩, ⟨0, 1, 0⟩, ⟨0, 1, 0⟩] 0 1
      ≠ fallbackPredictions
          [⟨0, 1, 0⟩, ⟨0, 1, 0⟩, ⟨0, 1, 0⟩, ⟨0, 1, 0⟩, ⟨0, 1, 0⟩, ⟨0, 1, 0⟩, ⟨0, 1, 0⟩] 0 1 := by
  have hq : qtyCol [⟨0, 1, 0⟩, ⟨0, 1, 0⟩, ⟨0, 1, 0⟩, ⟨0, 1, 0⟩, ⟨0, 1, 0⟩, ⟨0, 1, 0⟩, ⟨0, 1, 0⟩]
      = [7] := by
    simp [qtyCol, daysRange, minDay, maxDay, dailyQty, List.max?, List.min?, List.range_succ]
    norm_num
  have h0 : pyRound2 (0 : ℚ) = 0 := pyRound2_of_mul_int 0 0 (by norm_num)
  have h1 : pyRound2 (1 : ℚ) = 1 := pyRound2_of_mul_int 1 100 (by norm_num)
  have hgen : generatePredictions zeroModel zeroStd flatCal
      [⟨0, 1, 0⟩, ⟨0, 1, 0⟩, ⟨0, 1, 0⟩, ⟨0, 1, 0⟩, ⟨0, 1, 0⟩, ⟨0, 1, 0⟩, ⟨0, 1, 0⟩] 0 1
      = [⟨1, 0, 0, 0⟩] := by
    rw [generatePredictions, if_neg (by norm_num), makePredictions, hq]
    simp [makePredGo, mkStep, stepFeatures, lastN, zeroModel, zeroStd, flatCal,
      maxDay, List.max?]
    norm_num [h0]
  have hfb : fallbackPredictions
      [⟨0, 1, 0⟩, ⟨0, 1, 0⟩, ⟨0, 1, 0⟩, ⟨0, 1, 0⟩, ⟨0, 1, 0⟩, ⟨0, 1, 0⟩, ⟨0, 1, 0⟩] 0 1
      = [⟨1, 1, 1/2, 3/2⟩] := by
    have h2 : pyRound2 (1/2 : ℚ) = 1/2 := pyRound2_of_mul_int _ 50 (by norm_num)
    have h3 : pyRound2 (3/2 : ℚ) = 3/2 := pyRound2_of_mul_int _ 150 (by norm_num)
    simp [fallbackPredictions, List.range_succ, mean]
    norm_num [h1, h2, h3]
  refine ⟨?_, by norm_num, ?_⟩
  · simp [featureRowCount, maxDay, minDay, List.max?, List.min?]
  · rw [hgen, hfb]
    intro hcontra
    have : (0 : ℚ) = 1 := congrArg Pred.pq (List.head_eq_of_cons_eq hcontra)
    norm_num at this

/-! ## C2 — insufficient-data fallback values -/

/-- C2: with no sales history and horizon 5, generation produces exactly 5
points, each predicting 1.0 with bounds [0.5, 1.5]; with a three-record
history of quantities 4, 6, 5 every produced point predicts the mean 5.0 with
bounds [2.5, 7.5]. -/
theorem C2_fallback_values (model : FeatureVec → ℚ) (npStd : List ℚ → ℚ)
    (cal : Cal) (today : ℤ) (d1 d2 d3 : ℤ) (r1 r2 r3 : ℚ) (horizon : ℕ) :
    (generatePredictions model npStd cal [] today 5).length = 5 ∧
    (∀ p ∈ generatePredictions model npStd cal [] today 5,
      p.pq = 1 ∧ p.lo = 1/2 ∧ p.hi = 3/2) ∧
    (∀ p ∈ generatePredictions model npStd cal
        [⟨d1, 4, r1⟩, ⟨d2, 6, r2⟩, ⟨d3, 5, r3⟩] today horizon,
      p.pq = 5 ∧ p.lo = 5/2 ∧ p.hi = 15/2) := by
  have hzero : generatePredictions model npStd cal [] today 5
      = fallbackPredictions [] today 5 := by
    simp [generatePredictions]
  have hthree : generatePredictions model npStd cal
      [⟨d1, 4, r1⟩, ⟨d2, 6, r2⟩, ⟨d3, 5, r3⟩] today horizon
      = fallbackPredictions [⟨d1, 4, r1⟩, ⟨d2, 6, r2⟩, ⟨d3, 5, r3⟩] today horizon := by
    simp [generatePredictions]
  have h1 : pyRound2 (1 : ℚ) = 1 := pyRound2_of_mul_int 1 100 (by norm_num)
  have h2 : pyRound2 (1/2 : ℚ) = 1/2 := pyRound2_of_mul_int _ 50 (by norm_num)
  have h3 : pyRound2 (3/2 : ℚ) = 3/2 := pyRound2_of_mul_int _ 150 (by norm_num)
  have h5 : pyRound2 (5 : ℚ) = 5 := pyRound2_of_mul_int 5 500 (by norm_num)
  have h52 : pyRound2 (5/2 : ℚ) = 5/2 := pyRound2_of_mul_int _ 250 (by norm_num)
  have h152 : pyRound2 (15/2 : ℚ) = 15/2 := pyRound2_of_mul_int _ 750 (by norm_num)
  refine ⟨?_, ?_, ?_⟩
  · rw [hzero]
    simp only [fallbackPredictions, List.length_map, List.length_range]
  · rw [hzero]
    intro p hp
    simp only [fallbackPredictions, List.mem_map] at hp
    rcases hp with ⟨i, _, rfl⟩
    refine ⟨?_, ?_, ?_⟩ <;> simp <;> norm_num [h1, h2, h3]
  · rw [hthree]
    intro p hp
    simp only [fallbackPredictions, List.mem_map] at hp
    rcases hp with ⟨i, _, rfl⟩
    refine ⟨?_, ?_, ?_⟩ <;> simp [mean] <;> norm_num [h5, h52, h152]

/-- Witness for C2 at a fully concrete input. -/
theorem C2_fallback_values_w :
    (generatePredictions zeroModel zeroStd flatCal [] 0 5).length = 5 ∧
    ((⟨1, 1, 1/2, 3/2⟩ : Pred).pq = 1 ∧ (⟨1, 1, 1/2, 3/2⟩ : Pred).lo = 1/2 ∧
      (⟨1, 1, 1/2, 3/2⟩ : Pred).hi = 3/2) ∧
    ((⟨11, 5, 5/2, 15/2⟩ : Pred).pq = 5 ∧ (⟨11, 5, 5/2, 15/2⟩ : Pred).lo = 5/2 ∧
      (⟨11, 5, 5/2, 15/2⟩ : Pred).hi = 15/2) := by
  have hm1 : (⟨1, 1, 1/2, 3/2⟩ : Pred) ∈
      generatePredictions zeroModel zeroStd flatCal [] 0 5 := by
    have h1 : pyRound2 (1 : ℚ) = 1 := pyRound2_of_mul_int 1 100 (by norm_num)
    have h2 : pyRound2 (1/2 : ℚ) = 1/2 := pyRound2_of_mul_int _ 50 (by norm_num)
    have h3 : pyRound2 (3/2 : ℚ) = 3/2 := pyRound2_of_mul_int _ 150 (by norm_num)
    have hgen : generatePredictions zeroModel zeroStd flatCal [] 0 5
        = fallbackPredictions [] 0 5 := by simp [generatePredictions]
    rw [hgen]
    simp [fallbackPredictions, List.range_succ]
    norm_num [h1, h2, h3]
  have hm2 : (⟨11, 5, 5/2, 15/2⟩ : Pred) ∈
      generatePredictions zeroModel zeroStd flatCal
        [⟨0, 4, 0⟩, ⟨1, 6, 0⟩, ⟨2, 5, 0⟩] 10 1 := by
    have h5 : pyRound2 (5 : ℚ) = 5 := pyRound2_of_mul_int 5 500 (by norm_num)
    have h52 : pyRound2 (5/2 : ℚ) = 5/2 := pyRound2_of_mul_int _ 250 (by norm_num)
    have h152 : pyRound2 (15/2 : ℚ) = 15/2 := pyRound2_of_mul_int _ 750 (by norm_num)
    have hgen : generatePredictions zeroModel zeroStd flatCal
        [⟨0, 4, 0⟩, ⟨1, 6, 0⟩, ⟨2, 5, 0⟩] 10 1
        = fallbackPredictions [⟨0, 4, 0⟩, ⟨1, 6, 0⟩, ⟨2, 5, 0⟩] 10 1 := by
      simp [generatePredictions]
    rw [hgen]
    simp [fallbackPredictions, List.range_succ, mean]
    norm_num [h5, h52, h152]
  exact ⟨(C2_fallback_values zeroModel zeroStd flatCal 0 0 1 2 0 0 0 3).1,
    (C2_fallback_values zeroModel zeroStd flatCal 0 0 1 2 0 0 0 3).2.1
      ⟨1, 1, 1/2, 3/2⟩ hm1,
    (C2_fallback_values zeroModel zeroStd flatCal 10 0 1 2 0 0 0 1).2.2
      ⟨11, 5, 5/2, 15/2⟩ hm2⟩

/-! ## C3 — lag features of the recursive forecaster -/

/-- The four lag features of a forecast step, for a dense history of at least
30 days: each indexes the concatenation of history and already-produced
predictions from its end. -/
theorem stepFeatures_lag (npStd : List ℚ → ℚ) (cal : Cal) (hist pv : List ℚ)
    (h30 : 30 ≤ hist.length) (d : ℤ) :
    (stepFeatures npStd cal (lastN hist 30) pv d).lag1
        = (hist ++ pv).getD (hist.length + pv.length - 1) 0 ∧
    (stepFeatures npStd cal (lastN hist 30) pv d).lag7
        = (hist ++ pv).getD (hist.length + pv.length - 7) 0 ∧
    (stepFeatures npStd cal (lastN hist 30) pv d).lag14
        = (hist ++ pv).getD (hist.length + pv.length - 14) 0 ∧
    (stepFeatures npStd cal (lastN hist 30) pv d).lag30
        = (hist ++ pv).getD (hist.length + pv.length - 30) 0 := by
  have hq := stepQuantities hist pv h30
  refine ⟨?_, ?_, ?_, ?_⟩ <;>
    (simp only [stepFeatures]; rw [hq]; exact stepLag_eq hist pv h30 _ (by norm_num))

/-- All `predicted_quantity` values of a run of the degenerate zero model are
zero. -/
theorem zeroGo_pq (recent0 : List ℚ) (lastDate : ℤ) (n : ℕ) :
    (makePredGo zeroModel zeroStd flatCal recent0 lastDate n).map Pred.pq
      = List.replicate n 0 := by
  have h0 : pyRound2 (0 : ℚ) = 0 := pyRound2_of_mul_int 0 0 (by norm_num)
  induction n with
  | zero => rfl
  | succ m ih =>
    rw [List.replicate_succ']
    simp only [makePredGo, List.map_append, ih, mkStep, zeroModel, List.map_cons,
      List.map_nil]
    norm_num [h0]

/-- C3 (amended): in the recursive multi-step forecast over a dense history of
at least 30 days, for every step i the lag_k feature (k in 1, 7, 14, 30)
equals the element at position len(history) + i - 1 - k of the concatenation
of the full actual history with the predictions already produced in this run.
For histories of 7 to 29 days the source indexes a buffer holding only the
last min(30, len(history)) actual values, so lag_k degrades to 0 whenever
k exceeds max(min(30, len(history)), i - 1) even when that concatenation
position exists. -/
theorem C3_lag_of_concatenation (model : FeatureVec → ℚ) (npStd : List ℚ → ℚ)
    (cal : Cal) (hist : List ℚ) (h30 : 30 ≤ hist.length) (lastDate : ℤ)
    (horizon i : ℕ) (hi1 : 1 ≤ i) (hih : i ≤ horizon) :
    (stepFeatures npStd cal (lastN hist 30)
        ((makePredGo model npStd cal (lastN hist 30) lastDate (i - 1)).map Pred.pq)
        (lastDate + (i : ℤ))).lag1
      = (hist ++ (makePredGo model npStd cal (lastN hist 30) lastDate (i - 1)).map
          Pred.pq).getD (hist.length + (i - 1) - 1) 0 ∧
    (stepFeatures npStd cal (lastN hist 30)
        ((makePredGo model npStd cal (lastN hist 30) lastDate (i - 1)).map Pred.pq)
        (lastDate + (i : ℤ))).lag7
      = (hist ++ (makePredGo model npStd cal (lastN hist 30) lastDate (i - 1)).map
          Pred.pq).getD (hist.length + (i - 1) - 7) 0 ∧
    (stepFeatures npStd cal (lastN hist 30)
        ((makePredGo model npStd cal (lastN hist 30) lastDate (i - 1)).map Pred.pq)
        (lastDate + (i : ℤ))).lag14
      = (hist ++ (makePredGo model npStd cal (lastN hist 30) lastDate (i - 1)).map
          Pred.pq).getD (hist.length + (i - 1) - 14) 0 ∧
    (stepFeatures npStd cal (lastN hist 30)
        ((makePredGo model npStd cal (lastN hist 30) lastDate (i - 1)).map Pred.pq)
        (lastDate + (i : ℤ))).lag30
      = (hist ++ (makePredGo model npStd cal (lastN hist 30) lastDate (i - 1)).map
          Pred.pq).getD (hist.length + (i - 1) - 30) 0 := by
  have hlen : ((makePredGo model npStd cal (lastN hist 30) lastDate (i - 1)).map
      Pred.pq).length = i - 1 := by
    rw [List.length_map, makePredGo_length]
  have h := stepFeatures_lag npStd cal hist
    ((makePredGo model npStd cal (lastN hist 30) lastDate (i - 1)).map Pred.pq)
    h30 (lastDate + (i : ℤ))
  rw [hlen] at h
  exact h

/-- Witness for C3 on a concrete 30-day history at step 1. -/
theorem C3_lag_of_concatenation_w :
    (stepFeatures zeroStd flatCal (lastN (List.replicate 30 (2 : ℚ)) 30)
        ((makePredGo zeroModel zeroStd flatCal (lastN (List.replicate 30 (2 : ℚ)) 30)
          0 (1 - 1)).map Pred.pq) (0 + ((1 : ℕ) : ℤ))).lag1
      = (List.replicate 30 (2 : ℚ)
          ++ (makePredGo zeroModel zeroStd flatCal (lastN (List.replicate 30 (2 : ℚ)) 30)
            0 (1 - 1)).map Pred.pq).getD
          ((List.replicate 30 (2 : ℚ)).length + (1 - 1) - 1) 0 ∧
    (stepFeatures zeroStd flatCal (lastN (List.replicate 30 (2 : ℚ)) 30)
        ((makePredGo zeroModel zeroStd flatCal (lastN (List.replicate 30 (2 : ℚ)) 30)
          0 (1 - 1)).map Pred.pq) (0 + ((1 : ℕ) : ℤ))).lag7
      = (List.replicate 30 (2 : ℚ)
          ++ (makePredGo zeroModel zeroStd flatCal (lastN (List.replicate 30 (2 : ℚ)) 30)
            0 (1 - 1)).map Pred.pq).getD
          ((List.replicate 30 (2 : ℚ)).length + (1 - 1) - 7) 0 ∧
    (stepFeatures zeroStd flatCal (lastN (List.replicate 30 (2 : ℚ)) 30)
        ((makePredGo zeroModel zeroStd flatCal (lastN (List.replicate 30 (2 : ℚ)) 30)
          0 (1 - 1)).map Pred.pq) (0 + ((1 : ℕ) : ℤ))).lag14
      = (List.replicate 30 (2 : ℚ)
          ++ (makePredGo zeroModel zeroStd flatCal (lastN (List.replicate 30 (2 : ℚ)) 30)
            0 (1 - 1)).map Pred.pq).getD
          ((List.replicate 30 (2 : ℚ)).length + (1 - 1) - 14) 0 ∧
    (stepFeatures zeroStd flatCal (lastN (List.replicate 30 (2 : ℚ)) 30)
        ((makePredGo zeroModel zeroStd flatCal (lastN (List.replicate 30 (2 : ℚ)) 30)
          0 (1 - 1)).map Pred.pq) (0 + ((1 : ℕ) : ℤ))).lag30
      = (List.replicate 30 (2 : ℚ)
          ++ (makePredGo zeroModel zeroStd flatCal (lastN (List.replicate 30 (2 : ℚ)) 30)
            0 (1 - 1)).map Pred.pq).getD
          ((List.replicate 30 (2 : ℚ)).length + (1 - 1) - 30) 0 :=
  C3_lag_of_concatenation zeroModel zeroStd flatCal (List.replicate 30 (2 : ℚ))
    (by simp) 0 1 1 (by norm_num) (by norm_num)

/-- Counterexample for C3 as stated over histories of at least 7 days: with the
7-day dense history [5, 1, 1, 1, 1, 1, 1] and the zero model, at step 8 the
concatenation position 7 + 8 - 1 - 14 = 0 exists and holds 5, but the source's
sliding 30-element buffer has dropped the actual history, so lag_14 is 0. -/
theorem C3_short_history_counterexample :
    (stepFeatures zeroStd flatCal (lastN [(5 : ℚ), 1, 1, 1, 1, 1, 1] 30)
        ((makePredGo zeroModel zeroStd flatCal (lastN [(5 : ℚ), 1, 1, 1, 1, 1, 1] 30)
          0 7).map Pred.pq) 8).lag14 = 0 ∧
    ([(5 : ℚ), 1, 1, 1, 1, 1, 1]
        ++ (makePredGo zeroModel zeroStd flatCal (lastN [(5 : ℚ), 1, 1, 1, 1, 1, 1] 30)
          0 7).map Pred.pq).getD (7 + 7 - 14) 0 = 5 ∧
    (stepFeatures zeroStd flatCal (lastN [(5 : ℚ), 1, 1, 1, 1, 1, 1] 30)
        ((makePredGo zeroModel zeroStd flatCal (lastN [(5 : ℚ), 1, 1, 1, 1, 1, 1] 30)
          0 7).map Pred.pq) 8).lag14
      ≠ ([(5 : ℚ), 1, 1, 1, 1, 1, 1]
          ++ (makePredGo zeroModel zeroStd flatCal (lastN [(5 : ℚ), 1, 1, 1, 1, 1, 1] 30)
            0 7).map Pred.pq).getD (7 + 7 - 14) 0 := by
  have hpq := zeroGo_pq (lastN [(5 : ℚ), 1, 1, 1, 1, 1, 1] 30) 0 7
  have hlag : (stepFeatures zeroStd flatCal (lastN [(5 : ℚ), 1, 1, 1, 1, 1, 1] 30)
      ((makePredGo zeroModel zeroStd flatCal (lastN [(5 : ℚ), 1, 1, 1, 1, 1, 1] 30)
        0 7).map Pred.pq) 8).lag14 = 0 := by
    rw [hpq]
    simp [stepFeatures, lastN, List.replicate]
  have hgd : ([(5 : ℚ), 1, 1, 1, 1, 1, 1]
      ++ (makePredGo zeroModel zeroStd flatCal (lastN [(5 : ℚ), 1, 1, 1, 1, 1, 1] 30)
        0 7).map Pred.pq).getD (7 + 7 - 14) 0 = 5 := by
    rw [hpq]
    simp [List.getD]
  refine ⟨hlag, hgd, ?_⟩
  rw [hlag, hgd]
  norm_num

/-! ## C4 — one-sample rolling standard deviations are 0 -/

theorem head?_range_map {β : Type} (n : ℕ) (f : ℕ → β) (r : β)
    (h : ((List.range n).map f).head? = some r) : 0 < n ∧ r = f 0 := by
  cases n with
  | zero => simp at h
  | succ m =>
    rw [List.range_succ_eq_map] at h
    simp at h
    exact ⟨Nat.succ_pos m, h.symm⟩

/-- C4: a rolling standard deviation over a window holding exactly one sample
is 0, never NaN or undefined — in the first row of the `rolling_std` columns
of the FeatureBuilder table (pandas' one-sample NaN is zero-filled by
`fillna(0)`) and in the recursive forecaster's per-step rolling features,
for every input series. -/
theorem C4_one_sample_std_zero (sampleStd npStd : List ℚ → ℚ) (cal : Cal)
    (sales : List SaleRec) (r : FeatureRow)
    (hr : (featureTable sampleStd cal sales).head? = some r)
    (qs : List ℚ) (hqs : qs.length = 1) (d : ℤ) :
    (r.rs7 = 0 ∧ r.rs14 = 0 ∧ r.rs30 = 0) ∧
    ((stepFeatures npStd cal qs [] d).rs7 = 0 ∧
      (stepFeatures npStd cal qs [] d).rs14 = 0 ∧
      (stepFeatures npStd cal qs [] d).rs30 = 0) := by
  constructor
  · by_cases hs : sales.isEmpty
    · rw [featureTable, if_pos hs] at hr
      simp at hr
    · rw [featureTable, if_neg hs] at hr
      obtain ⟨hn, hr0⟩ := head?_range_map _ _ _ hr
      have hql : ((daysRange (minDay sales) (maxDay sales)).map (dailyQty sales)).length
          = (daysRange (minDay sales) (maxDay sales)).length := List.length_map _ _
      have htake : (((daysRange (minDay sales) (maxDay sales)).map
          (dailyQty sales)).take (0 + 1)).length = 1 := by
        rw [List.length_take]
        omega
      have hwin : ∀ w : ℕ, 1 ≤ w →
          (lastN (((daysRange (minDay sales) (maxDay sales)).map
            (dailyQty sales)).take (0 + 1)) w).length = 1 := by
        intro w hw
        rw [lastN_length, htake]
        omega
      subst hr0
      refine ⟨?_, ?_, ?_⟩ <;>
        simp only [hwin 7 (by norm_num), hwin 14 (by norm_num),
          hwin 30 (by norm_num)] <;>
        norm_num
  · have hwin : ∀ w : ℕ, 7 ≤ w →
        (if w ≤ qs.length then lastN qs w else qs).length = 1 := by
      intro w hw
      rw [if_neg (by omega)]
      exact hqs
    refine ⟨?_, ?_, ?_⟩ <;>
      simp only [stepFeatures, List.length_nil, Nat.lt_irrefl, if_false] <;>
      rw [if_neg] <;>
      simp [hqs, lastN_length]

/-- Witness for C4: a one-record sales history and a one-element series. -/
theorem C4_one_sample_std_zero_w :
    (((⟨0, 3, 0, 0, 0, 0, 0, 0, 0, 0, 0, 0, 3, 3, 3, 0, 0, 0⟩ : FeatureRow).rs7 = 0 ∧
      (⟨0, 3, 0, 0, 0, 0, 0, 0, 0, 0, 0, 0, 3, 3, 3, 0, 0, 0⟩ : FeatureRow).rs14 = 0 ∧
      (⟨0, 3, 0, 0, 0, 0, 0, 0, 0, 0, 0, 0, 3, 3, 3, 0, 0, 0⟩ : FeatureRow).rs30 = 0) ∧
    ((stepFeatures zeroStd flatCal [(2 : ℚ)] [] 0).rs7 = 0 ∧
      (stepFeatures zeroStd flatCal [(2 : ℚ)] [] 0).rs14 = 0 ∧
      (stepFeatures zeroStd flatCal [(2 : ℚ)] [] 0).rs30 = 0)) :=
  C4_one_sample_std_zero zeroStd zeroStd flatCal [⟨0, 3, 0⟩]
    ⟨0, 3, 0, 0, 0, 0, 0, 0, 0, 0, 0, 0, 3, 3, 3, 0, 0, 0⟩
    (by
      simp [featureTable, daysRange, minDay, maxDay, dailyQty, dailyRev,
        List.min?, List.max?, List.range_succ, lastN, mean, flatCal, zeroStd])
    [(2 : ℚ)] (by simp) 0

/-! ## C10 — confidence-band ordering of every produced point -/

theorem stepFeatures_rs30_nonneg (npStd : List ℚ → ℚ) (cal : Cal)
    (recent0 pv : List ℚ) (d : ℤ) (hstd : ∀ l, 0 ≤ npStd l) :
    0 ≤ (stepFeatures npStd cal recent0 pv d).rs30 := by
  simp only [stepFeatures]
  split_ifs <;> first | exact hstd _ | norm_num

theorem mkStep_chain (model : FeatureVec → ℚ) (f : FeatureVec) (d : ℤ)
    (hstd : 0 ≤ f.rs30) :
    0 ≤ (mkStep model f d).lo ∧ (mkStep model f d).lo ≤ (mkStep model f d).pq ∧
      (mkStep model f d).pq ≤ (mkStep model f d).hi := by
  have hpred : (0 : ℚ) ≤ max 0 (model f) := le_max_left 0 _
  have hmul : (0 : ℚ) ≤ 196/100 * f.rs30 :=
    mul_nonneg (by norm_num) hstd
  simp only [mkStep]
  refine ⟨pyRound2_nonneg (le_max_left 0 _), pyRound2_mono ?_, pyRound2_mono ?_⟩
  · exact max_le hpred (by linarith)
  · linarith

theorem makePredGo_chain (model : FeatureVec → ℚ) (npStd : List ℚ → ℚ)
    (cal : Cal) (recent0 : List ℚ) (lastDate : ℤ) (n : ℕ)
    (hstd : ∀ l, 0 ≤ npStd l) :
    ∀ p ∈ makePredGo model npStd cal recent0 lastDate n,
      0 ≤ p.lo ∧ p.lo ≤ p.pq ∧ p.pq ≤ p.hi := by
  induction n with
  | zero => intro p hp; simp [makePredGo] at hp
  | succ m ih =>
    intro p hp
    simp only [makePredGo, List.mem_append, List.mem_singleton] at hp
    rcases hp with hp | rfl
    · exact ih p hp
    · exact mkStep_chain model _ _
        (stepFeatures_rs30_nonneg npStd cal recent0 _ _ hstd)

/-- C10: every forecast point produced by either path of `generate_forecast`
satisfies 0 ≤ confidence_lower ≤ predicted_quantity ≤ confidence_upper after
rounding, given a non-negative standard-deviation kernel and (for the fallback
mean) non-negative sale quantities. -/
theorem C10_confidence_band_order (model : FeatureVec → ℚ) (npStd : List ℚ → ℚ)
    (cal : Cal) (sales : List SaleRec) (today : ℤ) (horizon : ℕ)
    (hstd : ∀ l, 0 ≤ npStd l) (hq : ∀ s ∈ sales, 0 ≤ s.qty) :
    ∀ p ∈ generatePredictions model npStd cal sales today horizon,
      0 ≤ p.lo ∧ p.lo ≤ p.pq ∧ p.pq ≤ p.hi := by
  unfold generatePredictions
  split_ifs with hlen
  · intro p hp
    simp only [fallbackPredictions, List.mem_map] at hp
    rcases hp with ⟨i, _, rfl⟩
    have havg : (0 : ℚ) ≤
        (if sales.isEmpty then 1
          else mean (sales.map fun s => ((s.qty : ℤ) : ℚ))) := by
      split_ifs with he
      · norm_num
      · apply div_nonneg
        · apply List.sum_nonneg
          intro x hx
          rcases List.mem_map.mp hx with ⟨s, hs, rfl⟩
          exact_mod_cast hq s hs
        · positivity
    refine ⟨pyRound2_nonneg (le_max_left 0 _), pyRound2_mono ?_, pyRound2_mono ?_⟩
    · exact max_le havg (by linarith)
    · linarith
  · exact makePredGo_chain model npStd cal _ _ horizon hstd

/-- Witness for C10 on the empty history. -/
theorem C10_confidence_band_order_w :
    0 ≤ (⟨1, 1, 1/2, 3/2⟩ : Pred).lo ∧
    (⟨1, 1, 1/2, 3/2⟩ : Pred).lo ≤ (⟨1, 1, 1/2, 3/2⟩ : Pred).pq ∧
    (⟨1, 1, 1/2, 3/2⟩ : Pred).pq ≤ (⟨1, 1, 1/2, 3/2⟩ : Pred).hi := by
  have hm1 : (⟨1, 1, 1/2, 3/2⟩ : Pred) ∈
      generatePredictions zeroModel zeroStd flatCal [] 0 5 := by
    have h1 : pyRound2 (1 : ℚ) = 1 := pyRound2_of_mul_int 1 100 (by norm_num)
    have h2 : pyRound2 (1/2 : ℚ) = 1/2 := pyRound2_of_mul_int _ 50 (by norm_num)
    have h3 : pyRound2 (3/2 : ℚ) = 3/2 := pyRound2_of_mul_int _ 150 (by norm_num)
    have hgen : generatePredictions zeroModel zeroStd flatCal [] 0 5
        = fallbackPredictions [] 0 5 := by simp [generatePredictions]
    rw [hgen]
    simp [fallbackPredictions, List.range_succ]
    norm_num [h1, h2, h3]
  exact C10_confidence_band_order zeroModel zeroStd flatCal [] 0 5
    (fun _ => le_refl 0) (by simp) ⟨1, 1, 1/2, 3/2⟩ hm1

/-! ## C8 — idempotent replace-all forecast persistence -/

theorem filter_filter_not {α : Type} (l : List α) (f : α → Bool) :
    (l.filter (fun a => !(f a))).filter f = [] := by
  induction l with
  | nil => rfl
  | cons a t ih =>
    by_cases hfa : f a <;> simp [List.filter_cons, hfa, ih]

theorem filter_idem {α : Type} (l : List α) (f : α → Bool) :
    (l.filter f).filter f = l.filter f := by
  induction l with
  | nil => rfl
  | cons a t ih =>
    by_cases hfa : f a <;> simp [List.filter_cons, hfa, ih]

theorem newRows_filter (uid pid : ℤ) (preds : List Pred) :
    ((preds.map fun p => (⟨uid, pid, p.fdate, p.pq, p.lo, p.hi⟩ : ForecastRow)).filter
      (fun r => r.product == pid && r.user == uid))
      = preds.map fun p => (⟨uid, pid, p.fdate, p.pq, p.lo, p.hi⟩ : ForecastRow) := by
  induction preds with
  | nil => rfl
  | cons a t ih => simp [List.filter_cons, ih]

theorem newRows_filter_not (uid pid : ℤ) (preds : List Pred) :
    ((preds.map fun p => (⟨uid, pid, p.fdate, p.pq, p.lo, p.hi⟩ : ForecastRow)).filter
      (fun r => !(r.product == pid && r.user == uid))) = [] := by
  induction preds with
  | nil => rfl
  | cons a t ih => simp [List.filter_cons, ih]

/-- After a replace-all save, the stored set of the product is exactly the new
prediction set. -/
theorem rowsFor_save (db : List ForecastRow) (uid pid : ℤ) (preds : List Pred) :
    rowsFor (saveForecasts db uid pid preds) uid pid
      = preds.map fun p => (⟨uid, pid, p.fdate, p.pq, p.lo, p.hi⟩ : ForecastRow) := by
  unfold rowsFor saveForecasts
  rw [List.filter_append, filter_filter_not, newRows_filter, List.nil_append]

/-- A replace-all save leaves rows of other (product, user) pairs untouched. -/
theorem save_filter_not (db : List ForecastRow) (uid pid : ℤ) (preds : List Pred) :
    (saveForecasts db uid pid preds).filter
        (fun r => !(r.product == pid && r.user == uid))
      = db.filter (fun r => !(r.product == pid && r.user == uid)) := by
  unfold saveForecasts
  rw [List.filter_append, newRows_filter_not, List.append_nil, filter_idem]

theorem generatePredictions_length (model : FeatureVec → ℚ) (npStd : List ℚ → ℚ)
    (cal : Cal) (sales : List SaleRec) (today : ℤ) (horizon : ℕ) :
    (generatePredictions model npStd cal sales today horizon).length = horizon := by
  unfold generatePredictions
  split_ifs
  · simp only [fallbackPredictions, List.length_map, List.length_range]
  · unfold makePredictions
    exact makePredGo_length _ _ _ _ _ _

theorem makePredGo_dates (model : FeatureVec → ℚ) (npStd : List ℚ → ℚ)
    (cal : Cal) (recent0 : List ℚ) (lastDate : ℤ) (n : ℕ) :
    (makePredGo model npStd cal recent0 lastDate n).map Pred.fdate
      = (List.range n).map (fun (j : ℕ) => lastDate + ((j : ℤ) + 1)) := by
  induction n with
  | zero => rfl
  | succ m ih =>
    rw [List.range_succ, List.map_append]
    simp only [makePredGo, List.map_append, ih, mkStep, List.map_cons, List.map_nil]

theorem generatePredictions_dates_nodup (model : FeatureVec → ℚ)
    (npStd : List ℚ → ℚ) (cal : Cal) (sales : List SaleRec) (today : ℤ)
    (horizon : ℕ) :
    ((generatePredictions model npStd cal sales today horizon).map Pred.fdate).Nodup := by
  have hinj : ∀ b : ℤ, Function.Injective (fun (j : ℕ) => b + ((j : ℤ) + 1)) := by
    intro b a a' ha
    simp only at ha
    have : (a : ℤ) = a' := by linarith
    exact_mod_cast this
  unfold generatePredictions
  split_ifs
  · unfold fallbackPredictions
    rw [List.map_map]
    exact (List.nodup_range horizon).map (hinj today)
  · unfold makePredictions
    rw [makePredGo_dates]
    exact (List.nodup_range horizon).map (hinj (maxDay sales))

/-- C8: forecast regeneration is idempotent — each call leaves exactly
`horizon` stored points for the product with pairwise distinct forecast dates,
and a second call with unchanged inputs leaves the whole table unchanged (the
prior set is fully replaced, no duplicate dates, no growth). -/
theorem C8_idempotent_regeneration (model : FeatureVec → ℚ) (npStd : List ℚ → ℚ)
    (cal : Cal) (productIds : List ℤ) (db : List ForecastRow) (uid pid : ℤ)
    (sales : List SaleRec) (today : ℤ) (horizon : ℕ) (db1 db2 : List ForecastRow)
    (h1 : generateForecastDb model npStd cal productIds db uid pid sales today
      horizon = some db1)
    (h2 : generateForecastDb model npStd cal productIds db1 uid pid sales today
      horizon = some db2) :
    (rowsFor db1 uid pid).length = horizon ∧
    ((rowsFor db1 uid pid).map ForecastRow.fdate).Nodup ∧
    db2 = db1 ∧
    (rowsFor db2 uid pid).length = horizon := by
  unfold generateForecastDb at h1 h2
  split_ifs at h1 h2 with hmem
  have hdb1 : saveForecasts db uid pid
      (generatePredictions model npStd cal sales today horizon) = db1 :=
    Option.some.inj h1
  have hdb2 : saveForecasts db1 uid pid
      (generatePredictions model npStd cal sales today horizon) = db2 :=
    Option.some.inj h2
  have hrows1 : rowsFor db1 uid pid
      = (generatePredictions model npStd cal sales today horizon).map
        fun p => (⟨uid, pid, p.fdate, p.pq, p.lo, p.hi⟩ : ForecastRow) := by
    rw [← hdb1, rowsFor_save]
  have hlen1 : (rowsFor db1 uid pid).length = horizon := by
    rw [hrows1, List.length_map, generatePredictions_length]
  have heq : db2 = db1 := by
    rw [← hdb2, ← hdb1]
    conv_lhs => rw [saveForecasts]
    rw [save_filter_not]
    rfl
  refine ⟨hlen1, ?_, heq, by rw [heq]; exact hlen1⟩
  rw [hrows1, List.map_map]
  have hcomp : (ForecastRow.fdate ∘ fun p =>
      (⟨uid, pid, p.fdate, p.pq, p.lo, p.hi⟩ : ForecastRow)) = Pred.fdate := rfl
  rw [hcomp]
  exact generatePredictions_dates_nodup model npStd cal sales today horizon

/-- Witness for C8 on a concrete run: empty prior table, horizon 2. -/
theorem C8_idempotent_regeneration_w :
    (rowsFor (saveForecasts [] 0 1 (generatePredictions zeroModel zeroStd flatCal
      [] 0 2)) 0 1).length = 2 ∧
    ((rowsFor (saveForecasts [] 0 1 (generatePredictions zeroModel zeroStd flatCal
      [] 0 2)) 0 1).map ForecastRow.fdate).Nodup ∧
    saveForecasts (saveForecasts [] 0 1 (generatePredictions zeroModel zeroStd
        flatCal [] 0 2)) 0 1 (generatePredictions zeroModel zeroStd flatCal [] 0 2)
      = saveForecasts [] 0 1 (generatePredictions zeroModel zeroStd flatCal [] 0 2) ∧
    (rowsFor (saveForecasts (saveForecasts [] 0 1 (generatePredictions zeroModel
      zeroStd flatCal [] 0 2)) 0 1 (generatePredictions zeroModel zeroStd flatCal
      [] 0 2)) 0 1).length = 2 :=
  C8_idempotent_regeneration zeroModel zeroStd flatCal [1] [] 0 1 [] 0 2
    (saveForecasts [] 0 1 (generatePredictions zeroModel zeroStd flatCal [] 0 2))
    (saveForecasts (saveForecasts [] 0 1 (generatePredictions zeroModel zeroStd
      flatCal [] 0 2)) 0 1 (generatePredictions zeroModel zeroStd flatCal [] 0 2))
    (by rw [generateForecastDb, if_pos (by norm_num)])
    (by rw [generateForecastDb, if_pos (by norm_num)])

/-! ## C5 — worked alert example -/

/-- C5: with reorder_point 10, safety_stock_days 5, lead_time_days 7,
available 50, a 30-day average demand of 5 (total 150) and nothing on order,
days_of_stock is 10; since 10 ≤ 12 the alert is a stockout warning, since
10 > 7 its priority is high (not critical), and the recommended reorder
quantity is max(0, 5 × 42 − 50 − 0) = 160. -/
theorem C5_alert_priority_example :
    daysOfStock ⟨1, 50, 0, 0, 10, some ⟨7, 1⟩, 150⟩ = 10 ∧
    alertDecision 5 ⟨1, 50, 0, 0, 10, some ⟨7, 1⟩, 150⟩
      = some ⟨AType.stockoutWarning, APriority.high, ATitle.stockoutRisk,
          some 160⟩ := by
  have hdays : daysOfStock ⟨1, 50, 0, 0, 10, some ⟨7, 1⟩, 150⟩ = 10 := by
    rw [daysOfStock]
    norm_num [avgDailyDemand, availableOf]
  refine ⟨hdays, ?_⟩
  rw [alertDecision, hdays]
  norm_num [availableOf, leadTimeOf, minOrderOf, calcReorderQty, avgDailyDemand,
    pyInt]

/-! ## C6 — zero-demand guard -/

/-- C6 (amended): when the trailing average demand is 0, days_of_stock
short-circuits to the sentinel 999 (the division is guarded); the time-based
stockout branch is then not triggered provided lead_time_days +
safety_stock_days < 999 — for pathologically large lead times the sentinel
999 does satisfy the branch test. -/
theorem C6_zero_demand_guard (safety : ℤ) (p : ProdInputs)
    (h0 : avgDailyDemand p = 0) :
    daysOfStock p = 999 ∧
    ((leadTimeOf p : ℚ) + (safety : ℚ) < 999 →
      ∀ d, alertDecision safety p = some d → d.title ≠ ATitle.stockoutRisk) := by
  have hdays : daysOfStock p = 999 := by
    rw [daysOfStock, h0]
    norm_num
  refine ⟨hdays, ?_⟩
  intro hlt d hd
  rw [alertDecision, hdays] at hd
  split_ifs at hd
  · cases Option.some.inj hd
    simp
  · exfalso
    linarith
  · exfalso
    linarith
  · cases Option.some.inj hd
    simp
  · cases Option.some.inj hd
    simp

/-- Witness for C6: a zero-demand product with the default lead time. -/
theorem C6_zero_demand_guard_w :
    daysOfStock ⟨1, 50, 0, 0, 10, some ⟨7, 1⟩, 0⟩ = 999 ∧
    ∀ d, alertDecision 7 ⟨1, 50, 0, 0, 10, some ⟨7, 1⟩, 0⟩ = some d →
      d.title ≠ ATitle.stockoutRisk := by
  have h := C6_zero_demand_guard 7 ⟨1, 50, 0, 0, 10, some ⟨7, 1⟩, 0⟩
    (by norm_num [avgDailyDemand])
  exact ⟨h.1, h.2 (by norm_num [leadTimeOf])⟩

/-- Counterexample for C6 as stated: a zero-demand product whose supplier lead
time is 995 days still triggers the time-based stockout branch, because
999 ≤ 995 + 7. -/
theorem C6_sentinel_counterexample :
    avgDailyDemand ⟨1, 1, 0, 0, 0, some ⟨995, 1⟩, 0⟩ = 0 ∧
    alertDecision 7 ⟨1, 1, 0, 0, 0, some ⟨995, 1⟩, 0⟩
      = some ⟨AType.stockoutWarning, APriority.high, ATitle.stockoutRisk,
          some 0⟩ := by
  constructor
  · norm_num [avgDailyDemand]
  · rw [alertDecision]
    norm_num [daysOfStock, avgDailyDemand, availableOf, leadTimeOf, minOrderOf,
      calcReorderQty, pyInt]

/-! ## C7 — regeneration deletes only unresolved alerts -/

theorem alertStep_keeps_unmatched (safety uid : ℤ) (db : List AlertRow)
    (p : ProdInputs) (a : AlertRow) (ha : a ∈ db)
    (hkeep : ¬(a.product = p.pid ∧ a.user = uid ∧ a.isResolved = false)) :
    a ∈ alertStep safety uid db p := by
  have hfa : (!(a.product == p.pid && a.user == uid && a.isResolved == false))
      = true := by
    by_cases h1 : a.product = p.pid
    · by_cases h2 : a.user = uid
      · cases hres : a.isResolved with
        | false => exact absurd ⟨h1, h2, hres⟩ hkeep
        | true => simp [h1, h2, hres]
      · simp [h2]
    · simp [h1]
  unfold alertStep
  cases alertDecision safety p with
  | none => exact List.mem_filter.mpr ⟨ha, hfa⟩
  | some d => exact List.mem_append_left _ (List.mem_filter.mpr ⟨ha, hfa⟩)

theorem alertStep_deleted (safety uid : ℤ) (db : List AlertRow) (p : ProdInputs)
    (a : AlertRow) (ha : a ∈ db) (hnot : a ∉ alertStep safety uid db p) :
    a.product = p.pid ∧ a.user = uid ∧ a.isResolved = false := by
  by_contra hk
  exact hnot (alertStep_keeps_unmatched safety uid db p a ha hk)

/-- C7 (amended): an alert-generation run deletes only unresolved alerts of
evaluated products of this user; every alert that is resolved before the run
still exists after it.  Alerts that are merely read but not resolved are
deleted along with the other unresolved alerts of their product. -/
theorem C7_resolved_survive (safety uid : ℤ) (prods : List ProdInputs)
    (db : List AlertRow) (a : AlertRow) (ha : a ∈ db) :
    (a.isResolved = true → a ∈ generateAlerts safety uid prods db) ∧
    (a ∉ generateAlerts safety uid prods db →
      a.isResolved = false ∧ a.user = uid ∧
        a.product ∈ prods.map ProdInputs.pid) := by
  induction prods generalizing db with
  | nil =>
    refine ⟨fun _ => ha, fun h => absurd ha h⟩
  | cons p rest ih =>
    have hstep : generateAlerts safety uid (p :: rest) db
        = generateAlerts safety uid rest (alertStep safety uid db p) := rfl
    constructor
    · intro hres
      rw [hstep]
      have hkeep : a ∈ alertStep safety uid db p :=
        alertStep_keeps_unmatched safety uid db p a ha
          (by intro hcon; rw [hres] at hcon; exact absurd hcon.2.2 (by simp))
      exact (ih (alertStep safety uid db p) hkeep).1 hres
    · intro hnot
      rw [hstep] at hnot
      by_cases hmem : a ∈ alertStep safety uid db p
      · have hrest := (ih (alertStep safety uid db p) hmem).2 hnot
        exact ⟨hrest.1, hrest.2.1, by simpa using Or.inr (by simpa using hrest.2.2)⟩
      · have hdel := alertStep_deleted safety uid db p a ha hmem
        exact ⟨hdel.2.2, hdel.2.1, by simp [hdel.1]⟩

/-- Witness for C7: a resolved alert survives a run over its product. -/
theorem C7_resolved_survive_w :
    (⟨0, 1, AType.lowStock, APriority.medium, ATitle.lowStockTitle, none,
      false, true⟩ : AlertRow) ∈
      generateAlerts 7 0 [⟨1, 50, 0, 0, 20, some ⟨7, 1⟩, 0⟩]
        [⟨0, 1, AType.lowStock, APriority.medium, ATitle.lowStockTitle, none,
          false, true⟩] :=
  (C7_resolved_survive 7 0 [⟨1, 50, 0, 0, 20, some ⟨7, 1⟩, 0⟩]
    [⟨0, 1, AType.lowStock, APriority.medium, ATitle.lowStockTitle, none,
      false, true⟩]
    ⟨0, 1, AType.lowStock, APriority.medium, ATitle.lowStockTitle, none,
      false, true⟩ (by simp)).1 rfl

/-- Counterexample for C7 as stated: a read-but-unresolved alert of the
evaluated product is deleted by the run (the delete filter tests only
`is_resolved == False`, not `is_read`). -/
theorem C7_read_alert_counterexample :
    (⟨0, 1, AType.lowStock, APriority.medium, ATitle.lowStockTitle, none,
      true, false⟩ : AlertRow).isRead = true ∧
    (⟨0, 1, AType.lowStock, APriority.medium, ATitle.lowStockTitle, none,
      true, false⟩ : AlertRow) ∉
      generateAlerts 7 0 [⟨1, 50, 0, 0, 20, some ⟨7, 1⟩, 0⟩]
        [⟨0, 1, AType.lowStock, APriority.medium, ATitle.lowStockTitle, none,
          true, false⟩] := by
  have hdec : alertDecision 7 ⟨1, 50, 0, 0, 20, some ⟨7, 1⟩, 0⟩ = none := by
    rw [alertDecision]
    norm_num [daysOfStock, avgDailyDemand, availableOf, leadTimeOf]
  refine ⟨rfl, ?_⟩
  show _ ∉ _
  simp [generateAlerts, alertStep, hdec]

/-! ## C9 — purchase-order drafting groups by supplier -/

theorem dictAppend_inv (uid : ℤ) (productDb : List ProductRec)
    (acc : List (ℤ × List ProductRec)) (k : ℤ) (pr : ProductRec)
    (hacc : ∀ g ∈ acc, ∀ q ∈ g.2,
      q ∈ productDb ∧ q.uid = uid ∧ q.supplier.getD 0 = g.1)
    (hpr : pr ∈ productDb ∧ pr.uid = uid ∧ pr.supplier.getD 0 = k) :
    ∀ g ∈ dictAppend acc k pr, ∀ q ∈ g.2,
      q ∈ productDb ∧ q.uid = uid ∧ q.supplier.getD 0 = g.1 := by
  induction acc with
  | nil =>
    intro g hg q hq
    simp only [dictAppend, List.mem_singleton] at hg
    subst hg
    simp only [List.mem_singleton] at hq
    subst hq
    exact hpr
  | cons hd tl ih =>
    intro g hg q hq
    rw [dictAppend] at hg
    split_ifs at hg with hk
    · rcases List.mem_cons.mp hg with rfl | hg'
      · rcases List.mem_append.mp hq with hq' | hq'
        · exact hacc (hd.1, hd.2) (List.mem_cons_self _ _) q hq'
        · rw [List.mem_singleton] at hq'
          subst hq'
          exact ⟨hpr.1, hpr.2.1, by rw [hpr.2.2, ← hk]⟩
      · exact hacc g (List.mem_cons_of_mem _ hg') q hq
    · rcases List.mem_cons.mp hg with rfl | hg'
      · exact hacc (hd.1, hd.2) (List.mem_cons_self _ _) q hq
      · exact ih (fun g' hg' => hacc g' (List.mem_cons_of_mem _ hg')) g hg' q hq

theorem bySupplier_inv (uid : ℤ) (productDb : List ProductRec) (ids : List ℤ)
    (acc : List (ℤ × List ProductRec))
    (hacc : ∀ g ∈ acc, ∀ q ∈ g.2,
      q ∈ productDb ∧ q.uid = uid ∧ q.supplier.getD 0 = g.1) :
    ∀ g ∈ ids.foldl (fun acc i =>
        match productDb.find? (fun p => p.pid == i && p.uid == uid) with
        | none => acc
        | some p => dictAppend acc ((p.supplier).getD 0) p) acc,
      ∀ q ∈ g.2, q ∈ productDb ∧ q.uid = uid ∧ q.supplier.getD 0 = g.1 := by
  induction ids generalizing acc with
  | nil => exact hacc
  | cons i rest ih =>
    rw [List.foldl_cons]
    apply ih
    cases hfind : productDb.find? (fun p => p.pid == i && p.uid == uid) with
    | none => simpa [hfind] using hacc
    | some p =>
      simp only [hfind]
      apply dictAppend_inv uid productDb acc _ p hacc
      have hmem := List.mem_of_find?_eq_some hfind
      have hpred := List.find?_some hfind
      simp only [Bool.and_eq_true, beq_iff_eq] at hpred
      exact ⟨hmem, hpred.2, rfl⟩

/-- C9: the purchase-order draft groups the found products by supplier id,
never contains a group for the missing supplier (key 0), and prices each line
at quantity max(1, avg_daily_demand × 30) — exact because `Sale.quantity` is
integral, so `int(avg_daily * 30)` is the integer `avg_daily * 30` itself. -/
theorem C9_po_supplier_grouping (uid : ℤ) (productDb : List ProductRec)
    (ids : List ℤ) (draft : List (ℤ × List (ℤ × ℤ)))
    (h : createPO uid productDb ids = some draft) :
    ∀ g ∈ draft, g.1 ≠ 0 ∧
      ∀ it ∈ g.2, ∃ pr, pr ∈ productDb ∧ pr.uid = uid ∧ pr.pid = it.1 ∧
        pr.supplier = some g.1 ∧
        ((it.2 : ℤ) : ℚ) = max 1 (avgDailyOfProduct pr * 30) := by
  unfold createPO at h
  split_ifs at h with hids
  have hdraft := Option.some.inj h
  intro g hg
  rw [← hdraft] at hg
  rcases List.mem_filterMap.mp hg with ⟨g₀, hg₀, hmap⟩
  split_ifs at hmap with h0
  cases Option.some.inj hmap
  have hinv := bySupplier_inv uid productDb ids [] (by simp) g₀ hg₀
  refine ⟨h0, ?_⟩
  intro it hit
  rcases List.mem_map.mp hit with ⟨pr, hpr, rfl⟩
  have hp := hinv pr hpr
  have hsup : pr.supplier = some g₀.1 := by
    cases hsc : pr.supplier with
    | none =>
      exfalso
      have := hp.2.2
      rw [hsc] at this
      exact h0 this.symm
    | some v =>
      have := hp.2.2
      rw [hsc] at this
      simp only [Option.getD_some] at this
      rw [this]
  refine ⟨pr, hp.1, hp.2.1, rfl, hsup, ?_⟩
  have hdiv : ((pr.totalQty30 : ℤ) : ℚ) / 30 * 30 = ((pr.totalQty30 : ℤ) : ℚ) := by
    field_simp
  show ((poQuantity pr : ℤ) : ℚ) = _
  unfold poQuantity avgDailyOfProduct
  rw [hdiv, pyInt_intCast]
  push_cast
  rfl

/-- Witness for C9: three products, the second without a supplier. -/
theorem C9_po_supplier_grouping_w :
    (10 : ℤ) ≠ 0 ∧
    ∀ it ∈ [((1 : ℤ), (60 : ℤ)), ((3 : ℤ), (1 : ℤ))],
      ∃ pr, pr ∈ ([⟨1, 0, some 10, 60⟩, ⟨2, 0, none, 30⟩, ⟨3, 0, some 10, 0⟩] :
          List ProductRec) ∧ pr.uid = 0 ∧ pr.pid = it.1 ∧
        pr.supplier = some (10 : ℤ) ∧
        ((it.2 : ℤ) : ℚ) = max 1 (avgDailyOfProduct pr * 30) :=
  C9_po_supplier_grouping 0
    [⟨1, 0, some 10, 60⟩, ⟨2, 0, none, 30⟩, ⟨3, 0, some 10, 0⟩] [1, 2, 3]
    [(10, [(1, 60), (3, 1)])]
    (by
      have hq1 : poQuantity ⟨1, 0, some 10, 60⟩ = 60 := by
        norm_num [poQuantity, avgDailyOfProduct, pyInt]
      have hq3 : poQuantity ⟨3, 0, some 10, 0⟩ = 1 := by
        norm_num [poQuantity, avgDailyOfProduct, pyInt]
      have hpo : createPO 0
          [⟨1, 0, some 10, 60⟩, ⟨2, 0, none, 30⟩, ⟨3, 0, some 10, 0⟩] [1, 2, 3]
          = some [(10, [(1, poQuantity ⟨1, 0, some 10, 60⟩),
              (3, poQuantity ⟨3, 0, some 10, 0⟩)])] := rfl
      rw [hpo, hq1, hq3])
    (10, [(1, 60), (3, 1)]) (by simp)

end ForecastAI
